import Mathlib

/-!
Verification development for the ggsql visualization-query pipeline.

The compiled core (splitter, grammar parser, semantic validator,
executor, Vega-Lite writer) ships as a native extension whose sources
are not part of this tree; those components are modelled here from the
specification's words.  The REST-layer connection registry
(`ggsql_rest/_connections.py`) is present in source and is embedded
directly.
-/

namespace Ggsql

/-! ## Error taxonomy (§7)

Modelled from the spec: the native extension defines the Python
exception classes `GgsqlError`, `ParseError`, `ValidationError`,
`ReaderError`, `WriterError`, `NoVisualiseError`; their class
definitions are not under src/.  The taxonomy below mirrors the
documented hierarchy: every concrete kind derives from the single base
`GgsqlError`, which derives from the language's root `Exception`. -/

inductive ExcKind where
  | exception
  | ggsqlError
  | parseE
  | validationE
  | readerE
  | writerE
  | noVisualiseE
deriving DecidableEq, Repr

/-- Direct superclass of each exception kind in the hierarchy. -/
def parentOf : ExcKind → Option ExcKind
  | .exception => none
  | .ggsqlError => some .exception
  | .parseE => some .ggsqlError
  | .validationE => some .ggsqlError
  | .readerE => some .ggsqlError
  | .writerE => some .ggsqlError
  | .noVisualiseE => some .ggsqlError

/-- Transitive subclass relation, bounded by a fuel argument. -/
def derivesFromAux : Nat → ExcKind → ExcKind → Bool
  | 0, _, _ => false
  | Nat.succ n, k, base =>
    if k = base then true
    else match parentOf k with
      | none => false
      | some p => derivesFromAux n p base

def derivesFrom (k base : ExcKind) : Bool := derivesFromAux 8 k base

/-- Modelled from the spec: the error values the core raises.  Each
constructor corresponds to one concrete exception class. -/
inductive GgsqlError where
  | parseError (msg : String)
  | validationError (msgs : List String)
  | readerError (msg : String)
  | writerError (msg : String)
  | noVisualiseError (msg : String)
deriving DecidableEq, Repr

/-- The exception class a raised core error belongs to. -/
def GgsqlError.kind : GgsqlError → ExcKind
  | .parseError _ => .parseE
  | .validationError _ => .validationE
  | .readerError _ => .readerE
  | .writerError _ => .writerE
  | .noVisualiseError _ => .noVisualiseE

/-! ## Reader state and table registration (§4.4)

Modelled from the spec: the DuckDB-backed reader's registered-table
namespace (the native `_DuckDBReader.register` / `unregister` are not
under src/).  The namespace is a finite map from table names to
tabular data; `register` overwrites an existing binding, `unregister`
is total (never fails) and silently does nothing when the name is
absent. -/

/-- A cell of a tabular result. -/
inductive Cell where
  | s (v : String)
  | i (v : Int)
deriving DecidableEq, Repr

/-- A tabular result: named columns and rows of cells. -/
structure Table where
  columns : List String
  rows : List (List Cell)
deriving DecidableEq, Repr

/-- The reader's backend namespace of registered tables. -/
structure ReaderState where
  tables : List (String × Table)
deriving DecidableEq, Repr

/-- Modelled from the spec: `register(name, data)` binds `name`,
overwriting any existing binding of the same name. -/
def register (st : ReaderState) (name : String) (t : Table) : ReaderState :=
  ⟨(name, t) :: st.tables.filter (fun e => e.1 ≠ name)⟩

/-- Modelled from the spec: `unregister(name)` unbinds `name`; it is a
total function, so it cannot fail, and it is a no-op when the name is
absent. -/
def unregister (st : ReaderState) (name : String) : ReaderState :=
  ⟨st.tables.filter (fun e => e.1 ≠ name)⟩

/-- Look a table up in the reader's namespace. -/
def lookupTable (st : ReaderState) (name : String) : Option Table :=
  st.tables.lookup name

/-! ## Splitter (§4.1)

Modelled from the spec: the native `split_query` is not under src/.
The algorithm scans the input tracking parenthesis nesting depth and
string-literal state; the `VISUALISE` keyword is recognized only at
depth 0, outside string literals, case-insensitively and at word
boundaries.  Everything before the first top-level `VISUALISE` is the
(trimmed) SQL part; everything from `VISUALISE` onward is the visual
part.  With no top-level `VISUALISE`, the SQL part is the whole
trimmed input and the visual part is empty. -/

def isWordChar (c : Char) : Bool := c.isAlphanum || c = '_'

def isWS (c : Char) : Bool := c = ' ' || c = '\t' || c = '\n' || c = '\r'

/-- Drop leading and trailing whitespace from a character list. -/
def trimChars (cs : List Char) : List Char :=
  ((cs.dropWhile isWS).reverse.dropWhile isWS).reverse

/-- Trim a string at both ends (whitespace only). -/
def trim (s : String) : String := String.mk (trimChars s.data)

/-- The keyword the splitter searches for, uppercased. -/
def visKeyword : List Char := ['V', 'I', 'S', 'U', 'A', 'L', 'I', 'S', 'E']

/-- Case-insensitive prefix match of an uppercase keyword, returning
the remainder after the keyword on success. -/
def matchKeyword : List Char → List Char → Option (List Char)
  | [], cs => some cs
  | _ :: _, [] => none
  | k :: ks, c :: cs => if c.toUpper = k then matchKeyword ks cs else none

/-- The position right before `cs` is a word boundary given the
previous character. -/
def boundaryOk (prev : Option Char) : Bool :=
  match prev with
  | none => true
  | some c => !isWordChar c

/-- A keyword match must also end at a word boundary. -/
def afterOk : List Char → Bool
  | [] => true
  | c :: _ => !isWordChar c

/-- `cs` starts with the `VISUALISE` keyword at a word boundary. -/
def visHere (cs : List Char) : Bool :=
  match matchKeyword visKeyword cs with
  | some rest => afterOk rest
  | none => false

/-- One scanner step: update parenthesis depth and string-literal
state on consuming character `c`. -/
def stepState (c : Char) (depth : Nat) (inStr : Bool) : Nat × Bool :=
  if inStr then (depth, c ≠ '\'')
  else if c = '(' then (depth + 1, false)
  else if c = ')' then (depth - 1, false)
  else if c = '\'' then (depth, true)
  else (depth, false)

/-- Scan for the first top-level `VISUALISE`, accumulating the
consumed prefix in reverse; returns the prefix before the keyword and
the remainder from the keyword onward. -/
def scanSplit (acc : List Char) :
    List Char → Nat → Bool → Option Char → Option (List Char × List Char)
  | [], _, _, _ => none
  | c :: rest, depth, inStr, prev =>
    if !inStr && depth = 0 && boundaryOk prev && visHere (c :: rest) then
      some (acc.reverse, c :: rest)
    else
      let st := stepState c depth inStr
      scanSplit (c :: acc) rest st.1 st.2 (some c)

/-- The input contains a top-level `VISUALISE` token (outside
parentheses and string literals), stated as its own recursion over the
scanner's state machine. -/
def hasTLVAux : List Char → Nat → Bool → Option Char → Bool
  | [], _, _, _ => false
  | c :: rest, depth, inStr, prev =>
    (!inStr && depth = 0 && boundaryOk prev && visHere (c :: rest)) ||
      (let st := stepState c depth inStr
       hasTLVAux rest st.1 st.2 (some c))

/-- The input string contains a top-level `VISUALISE` token. -/
def hasTopLevelVisualise (s : String) : Bool :=
  hasTLVAux s.data 0 false none

/-- Modelled from the spec: `split_query` separates the input into the
SQL statement and the visualization clause. -/
def split (input : String) : String × String :=
  match scanSplit [] input.data 0 false none with
  | some (pre, rest) => (String.mk (trimChars pre), String.mk rest)
  | none => (trim input, "")

/-! ## Abstract syntax tree (§3)

Modelled from the spec: the native grammar parser's AST is not under
src/.  A `VisualSpec` owns an optional `FROM` table, top-level
mappings, an ordered sequence of layers, an optional facet and label
overrides. -/

/-- Closed set of mark kinds; each has a fixed required-aesthetic set. -/
inductive MarkKind where
  | point
  | line
  | bar
  | area
deriving DecidableEq, Repr

def markName : MarkKind → String
  | .point => "point"
  | .line => "line"
  | .bar => "bar"
  | .area => "area"

/-- A mapping source: a column reference or the `*` wildcard. -/
inductive ColRef where
  | col (name : String)
  | star
deriving DecidableEq, Repr

/-- One `column_ref [AS aesthetic]` item of a mapping list. -/
structure Mapping where
  source : ColRef
  aes : Option String
deriving DecidableEq, Repr

/-- One `DRAW <mark> [MAPPING ...]` block. -/
structure Layer where
  mark : MarkKind
  mappings : List Mapping
deriving DecidableEq, Repr

inductive FacetKind where
  | wrap
  | grid
deriving DecidableEq, Repr

structure Facet where
  kind : FacetKind
  column : String
deriving DecidableEq, Repr

/-- The parsed visualization specification. -/
structure VisualSpec where
  fromTable : Option String
  topMappings : List Mapping
  layers : List Layer
  facet : Option Facet
  labels : List (String × String)
deriving DecidableEq, Repr

/-! ## Tokenizer and grammar parser (§4.2)

Modelled from the spec: the native grammar parser is not under src/.
The grammar, with case-insensitive keywords:
`VisualSpec := "VISUALISE" [FROM table] [column_list] layer+ [facet]
[label_clause]`. -/

inductive Token where
  | ident (s : String)
  | star
  | comma
  | arrow
  | strLit (s : String)
deriving DecidableEq, Repr

def upper (s : String) : String := String.mk (s.data.map Char.toUpper)

def keywordList : List String :=
  ["VISUALISE", "FROM", "DRAW", "MAPPING", "AS", "FACET", "WRAP", "GRID", "LABEL"]

def isKeyword (s : String) : Bool := keywordList.contains (upper s)

/-- A token is the given keyword, case-insensitively. -/
def Token.isKw (t : Token) (kw : String) : Bool :=
  match t with
  | .ident s => upper s = kw
  | _ => false

/-- Tokenize the visualization clause text.  The fuel argument bounds
the recursion; it is seeded with the input length plus one, which
suffices because every step consumes at least one character. -/
def tokenizeAux : Nat → List Char → Except String (List Token)
  | 0, _ => .error "tokenizer ran out of fuel"
  | _, [] => .ok []
  | Nat.succ fuel, c :: cs =>
    if isWS c then tokenizeAux fuel cs
    else if c = ',' then do
      let ts ← tokenizeAux fuel cs
      .ok (Token.comma :: ts)
    else if c = '*' then do
      let ts ← tokenizeAux fuel cs
      .ok (Token.star :: ts)
    else if c = '=' then
      match cs with
      | '>' :: cs2 => do
        let ts ← tokenizeAux fuel cs2
        .ok (Token.arrow :: ts)
      | _ => .error "expected => after ="
    else if c = '\'' then
      let lit := cs.takeWhile (fun d => d ≠ '\'')
      match cs.dropWhile (fun d => d ≠ '\'') with
      | '\'' :: cs2 => do
        let ts ← tokenizeAux fuel cs2
        .ok (Token.strLit (String.mk lit) :: ts)
      | _ => .error "unterminated string literal"
    else if isWordChar c then
      let w := cs.takeWhile isWordChar
      let rest := cs.dropWhile isWordChar
      do
        let ts ← tokenizeAux fuel rest
        .ok (Token.ident (String.mk (c :: w)) :: ts)
    else .error "unexpected character"

def tokenize (s : String) : Except String (List Token) :=
  tokenizeAux (s.data.length + 1) s.data

def markOfString (s : String) : Option MarkKind :=
  if upper s = "POINT" then some .point
  else if upper s = "LINE" then some .line
  else if upper s = "BAR" then some .bar
  else if upper s = "AREA" then some .area
  else none

/-- Parse one mapping item: `(column_ref | *) [AS aesthetic]`. -/
def parseMapping : List Token → Except String (Mapping × List Token)
  | Token.star :: Token.ident a1 :: Token.ident a2 :: rest =>
    if upper a1 = "AS" then
      if isKeyword a2 then .error "keyword cannot be an aesthetic name"
      else .ok (⟨.star, some a2⟩, rest)
    else .ok (⟨.star, none⟩, Token.ident a1 :: Token.ident a2 :: rest)
  | Token.star :: rest => .ok (⟨.star, none⟩, rest)
  | Token.ident w :: Token.ident a1 :: Token.ident a2 :: rest =>
    if isKeyword w then .error "keyword cannot be a column reference"
    else if upper a1 = "AS" then
      if isKeyword a2 then .error "keyword cannot be an aesthetic name"
      else .ok (⟨.col w, some a2⟩, rest)
    else .ok (⟨.col w, none⟩, Token.ident a1 :: Token.ident a2 :: rest)
  | Token.ident w :: rest =>
    if isKeyword w then .error "keyword cannot be a column reference"
    else .ok (⟨.col w, none⟩, rest)
  | _ => .error "expected a column reference or *"

/-- Parse a comma-separated mapping list (at least one item). -/
def parseMappingList : Nat → List Token →
    Except String (List Mapping × List Token)
  | 0, _ => .error "parser ran out of fuel"
  | Nat.succ fuel, ts => do
    let (m, rest) ← parseMapping ts
    match rest with
    | Token.comma :: rest2 => do
      let (ms, rest3) ← parseMappingList fuel rest2
      .ok (m :: ms, rest3)
    | _ => .ok ([m], rest)

/-- Parse one `DRAW <mark> [MAPPING mapping_list]` block. -/
def parseLayer : Nat → List Token → Except String (Layer × List Token)
  | fuel, Token.ident d :: Token.ident m :: rest =>
    if upper d = "DRAW" then
      match markOfString m with
      | none => .error ("unknown mark kind '" ++ m ++ "'")
      | some mk =>
        match rest with
        | Token.ident mp :: rest2 =>
          if upper mp = "MAPPING" then do
            let (ms, rest3) ← parseMappingList fuel rest2
            .ok (⟨mk, ms⟩, rest3)
          else .ok (⟨mk, []⟩, rest)
        | _ => .ok (⟨mk, []⟩, rest)
    else .error "expected DRAW"
  | _, _ => .error "expected DRAW <mark>"

/-- Parse one or more layers. -/
def parseLayers : Nat → List Token → Except String (List Layer × List Token)
  | 0, _ => .error "parser ran out of fuel"
  | Nat.succ fuel, ts => do
    let (l, rest) ← parseLayer fuel ts
    match rest with
    | t :: _ =>
      if t.isKw "DRAW" then do
        let (ls, rest2) ← parseLayers fuel rest
        .ok (l :: ls, rest2)
      else .ok ([l], rest)
    | [] => .ok ([l], rest)

/-- Parse an optional `FACET (WRAP|GRID) column` clause. -/
def parseFacetOpt : List Token → Except String (Option Facet × List Token)
  | Token.ident f :: rest =>
    if upper f = "FACET" then
      match rest with
      | Token.ident k :: Token.ident c :: rest2 =>
        if isKeyword c then .error "keyword cannot be a facet column"
        else if upper k = "WRAP" then .ok (some ⟨.wrap, c⟩, rest2)
        else if upper k = "GRID" then .ok (some ⟨.grid, c⟩, rest2)
        else .error "expected WRAP or GRID"
      | _ => .error "malformed FACET clause"
    else .ok (none, Token.ident f :: rest)
  | ts => .ok (none, ts)

/-- Parse `key => 'string'` pairs of a LABEL clause. -/
def parseLabelPairs : Nat → List Token →
    Except String (List (String × String) × List Token)
  | 0, _ => .error "parser ran out of fuel"
  | Nat.succ fuel, Token.ident k :: Token.arrow :: Token.strLit v :: rest =>
    match rest with
    | Token.comma :: rest2 => do
      let (ps, rest3) ← parseLabelPairs fuel rest2
      .ok ((k, v) :: ps, rest3)
    | _ => .ok ([(k, v)], rest)
  | _, _ => .error "malformed LABEL pair"

/-- Parse an optional `LABEL` clause. -/
def parseLabelsOpt (fuel : Nat) :
    List Token → Except String (List (String × String) × List Token)
  | Token.ident l :: rest =>
    if upper l = "LABEL" then parseLabelPairs fuel rest
    else .ok ([], Token.ident l :: rest)
  | ts => .ok ([], ts)

/-- True when the token list can start a top-level column list (an
identifier that is not a keyword, or `*`). -/
def startsColumnList : List Token → Bool
  | Token.star :: _ => true
  | Token.ident w :: _ => !isKeyword w
  | _ => false

/-- Parse a whole `VISUALISE ...` clause from its token list. -/
def parseVisual (ts : List Token) : Except String VisualSpec := do
  let fuel := ts.length + 1
  match ts with
  | t :: rest =>
    if t.isKw "VISUALISE" then do
      let (fromTable, rest2) ←
        match rest with
        | Token.ident f :: Token.ident tbl :: rest2 =>
          if upper f = "FROM" then
            if isKeyword tbl then .error "keyword cannot be a table name"
            else .ok (some tbl, rest2)
          else .ok (none, rest)
        | _ => .ok (none, rest)
      let (topMs, rest3) ←
        if startsColumnList rest2 then parseMappingList fuel rest2
        else .ok ([], rest2)
      let (layers, rest4) ← parseLayers fuel rest3
      let (facet, rest5) ← parseFacetOpt rest4
      let (labels, rest6) ← parseLabelsOpt fuel rest5
      match rest6 with
      | [] => .ok ⟨fromTable, topMs, layers, facet, labels⟩
      | _ => .error "trailing tokens after visualization clause"
    else .error "expected VISUALISE"
  | [] => .error "empty visualization clause"

/-- Modelled from the spec: `parse(visual_text) -> VisualSpec`,
failing with a parse error message on malformed grammar. -/
def parseSpec (visualText : String) : Except String VisualSpec := do
  let ts ← tokenize visualText
  parseVisual ts

/-! ## Semantic validator (§4.3)

Modelled from the spec: the native validator is not under src/.
`validate(spec, schema)` expands wildcards per layer against the
schema, checks each layer's populated aesthetics against the mark's
required set (one error per missing aesthetic, naming the aesthetic
and the mark kind), then checks every referenced column against the
schema, collecting all errors without short-circuiting. -/

/-- The fixed required-aesthetic set of each mark kind. -/
def requiredAesthetics : MarkKind → List String
  | .point => ["x", "y"]
  | .line => ["x", "y"]
  | .bar => ["x", "y"]
  | .area => ["x", "y"]

/-- The mappings a layer effectively carries: its own `MAPPING` list,
or the inherited top-level column list when it has none. -/
def effectiveMappings (spec : VisualSpec) (l : Layer) : List Mapping :=
  if l.mappings.isEmpty then spec.topMappings else l.mappings

/-- Columns a mapping list references explicitly (wildcards aside). -/
def explicitColumns (ms : List Mapping) : List String :=
  ms.filterMap (fun m =>
    match m.source with
    | .col c => some c
    | .star => none)

/-- Resolve a layer's mappings against the schema into
(column, aesthetic) pairs: a bare column `c` maps to aesthetic `c`,
and `*` expands to one implicit mapping per schema column not already
explicitly mapped in that layer. -/
def resolveLayer (spec : VisualSpec) (schema : List String) (l : Layer) :
    List (String × String) :=
  let ms := effectiveMappings spec l
  let explicit := explicitColumns ms
  ms.flatMap (fun m =>
    match m.source with
    | .col c => [(c, m.aes.getD c)]
    | .star => (schema.filter (fun c => !explicit.contains c)).map (fun c => (c, c)))

/-- Aesthetics actually populated in a layer. -/
def populatedAesthetics (spec : VisualSpec) (schema : List String) (l : Layer) :
    List String :=
  (resolveLayer spec schema l).map Prod.snd

/-- Required aesthetics of the layer's mark that are not populated. -/
def missingAesthetics (spec : VisualSpec) (schema : List String) (l : Layer) :
    List String :=
  (requiredAesthetics l.mark).filter
    (fun a => !(populatedAesthetics spec schema l).contains a)

/-- A structured validation error. -/
structure GError where
  message : String
deriving DecidableEq, Repr

/-- The error reported for one missing required aesthetic. -/
def mkMissingError (mk : MarkKind) (a : String) : GError :=
  ⟨"missing required aesthetic '" ++ a ++ "' for mark '" ++ markName mk ++ "'"⟩

/-- Step 2 errors of one layer: one per missing required aesthetic. -/
def layerRequiredErrors (spec : VisualSpec) (schema : List String) (l : Layer) :
    List GError :=
  (missingAesthetics spec schema l).map (mkMissingError l.mark)

/-- The error reported for one unknown column reference. -/
def mkUnknownColumnError (c : String) : GError :=
  ⟨"unknown column '" ++ c ++ "'"⟩

/-- Step 3 errors of one layer: one per explicitly referenced column
absent from the schema. -/
def layerUnknownColumnErrors (spec : VisualSpec) (schema : List String)
    (l : Layer) : List GError :=
  ((explicitColumns (effectiveMappings spec l)).filter
    (fun c => !schema.contains c)).map mkUnknownColumnError

/-- Unknown-column error for the facet column, when present. -/
def facetUnknownColumnErrors (spec : VisualSpec) (schema : List String) :
    List GError :=
  match spec.facet with
  | some f => if schema.contains f.column then [] else [mkUnknownColumnError f.column]
  | none => []

/-- Modelled from the spec: `validate(spec, schema)` collects all
errors across all layers (step 2 before step 3) before returning. -/
def validateSpec (spec : VisualSpec) (schema : List String) : List GError :=
  spec.layers.flatMap (layerRequiredErrors spec schema) ++
    spec.layers.flatMap (layerUnknownColumnErrors spec schema) ++
    facetUnknownColumnErrors spec schema

/-- Modelled from the spec: the `Validated` result owning the split
parts, the parsed spec when parsing succeeded, and the collected
errors. -/
structure Validated where
  sql : String
  visual : String
  spec : Option VisualSpec
  errors : List GError
deriving DecidableEq, Repr

/-- `valid()` accessor: no collected errors. -/
def Validated.valid (v : Validated) : Bool := v.errors.isEmpty

/-- `has_visual()` accessor: a `VisualSpec` was parsed. -/
def Validated.hasVisual (v : Validated) : Bool := v.spec.isSome

/-- Modelled from the spec: the validation pipeline on a whole query
string and a known result schema: split, then parse the visual part
when present (parse errors are collected into the `Validated`), then
validate the parsed spec against the schema. -/
def validateQuery (query : String) (schema : List String) : Validated :=
  let parts := split query
  if parts.2 = "" then ⟨parts.1, parts.2, none, []⟩
  else
    match parseSpec parts.2 with
    | .error e => ⟨parts.1, parts.2, none, [⟨e⟩]⟩
    | .ok sp => ⟨parts.1, parts.2, some sp, validateSpec sp schema⟩

/-! ## Executor (§4.5)

Modelled from the spec: the native `execute` orchestration is not
under src/.  A backend is a pure query function over the current
table bindings.  `execute(query, data)` registers every entry of
`data`, runs split → parse → base SQL → validate → per-layer packaging,
and unregisters every entry of `data` on all exit paths. -/

/-- A backend: runs SQL text against the current bindings, failing
with a backend-level error message. -/
def Backend : Type := List (String × Table) → String → Except String Table

/-- Per-layer execution record of a `Prepared` result. -/
structure LayerResult where
  layerSql : String
  statSql : Option String
  statResult : Option Table
deriving DecidableEq, Repr

/-- Modelled from the spec: the fully executed, ready-to-render
result bundle. -/
structure Prepared where
  sql : String
  visual : String
  spec : VisualSpec
  baseResult : Table
  perLayer : List LayerResult
  warnings : List String
deriving DecidableEq, Repr

def Prepared.layerCount (p : Prepared) : Nat := p.spec.layers.length

/-- Modelled from the spec: `execute_sql(sql)` runs plain SQL against
the current bindings, failing with a `ReaderError` on backend
failure. -/
def executeSql (backend : Backend) (st : ReaderState) (sql : String) :
    Except GgsqlError Table :=
  match backend st.tables sql with
  | .ok t => .ok t
  | .error e => .error (.readerError e)

/-- The base SQL actually run: the `VISUALISE FROM <table>` shorthand
stands for `SELECT * FROM <table>` when no SQL statement precedes the
clause. -/
def baseSqlOf (sqlPart : String) (spec : VisualSpec) : String :=
  if sqlPart = "" then
    match spec.fromTable with
    | some t => "SELECT * FROM " ++ t
    | none => sqlPart
  else sqlPart

/-- Modelled from the spec: the pipeline inside `execute`, run with
the caller's tables already registered: split, parse, run the base
SQL to obtain the result schema, validate against it, then package a
`Prepared`.  The grammar has no statistical-transform clause, so
per-layer stat queries are absent. -/
def executeCore (backend : Backend) (tables : List (String × Table))
    (query : String) : Except GgsqlError Prepared :=
  let parts := split query
  if parts.2 = "" then
    .error (.noVisualiseError
      "query has no VISUALISE clause; use execute_sql for plain SQL")
  else
    match parseSpec parts.2 with
    | .error e => .error (.parseError e)
    | .ok spec =>
      match backend tables (baseSqlOf parts.1 spec) with
      | .error e => .error (.readerError e)
      | .ok base =>
        let errs := validateSpec spec base.columns
        if errs.isEmpty then
          .ok ⟨parts.1, parts.2, spec, base,
            spec.layers.map (fun _ => ⟨baseSqlOf parts.1 spec, none, none⟩), []⟩
        else .error (.validationError (errs.map GError.message))

/-- Modelled from the spec: `execute(query, data)` registers every
entry of `data` before any SQL runs and unregisters every entry after
completion, on success and on any failure path alike (an explicit
scoped guard).  Returns the result together with the reader's final
namespace state. -/
def execute (backend : Backend) (st : ReaderState) (query : String)
    (data : List (String × Table)) : Except GgsqlError Prepared × ReaderState :=
  let st1 := data.foldl (fun s e => register s e.1 e.2) st
  let res := executeCore backend st1.tables query
  let st2 := data.foldl (fun s e => unregister s e.1) st1
  (res, st2)

/-- Recognize the `NoVisualiseError` outcome of an `execute` call. -/
def isNoVisualise (r : Except GgsqlError Prepared) : Bool :=
  match r with
  | .error (.noVisualiseError _) => true
  | _ => false

/-- Recognize the `ValidationError` outcome of an `execute` call. -/
def isValidationFailure (r : Except GgsqlError Prepared) : Bool :=
  match r with
  | .error (.validationError _) => true
  | _ => false

/-! ## Writer (§4.6)

Modelled from the spec: the native Vega-Lite writer is not under
src/.  `render_json` emits a JSON chart specification; `render_chart`
builds a structured chart object from the same specification, and the
two must be representationally equivalent.  Output is always wrapped
in a `layer` array; a facet instead produces an outer facet object
holding the layer spec as its sub-spec. -/

/-- A JSON value. -/
inductive Json where
  | str (s : String)
  | num (n : Int)
  | arr (xs : List Json)
  | obj (fields : List (String × Json))

/-- Quote-escape the characters that matter for the strings the
writer emits. -/
def escapeChar (c : Char) : List Char :=
  if c = '"' then ['\\', '"']
  else if c = '\\' then ['\\', '\\']
  else [c]

def escape (s : String) : String := String.mk (s.data.flatMap escapeChar)

mutual

/-- Serialize a JSON value to text. -/
def Json.serialize : Json → String
  | .str s => "\"" ++ escape s ++ "\""
  | .num n => toString n
  | .arr xs => "[" ++ serializeList xs ++ "]"
  | .obj fs => "\x7b" ++ serializeFields fs ++ "\x7d"

def serializeList : List Json → String
  | [] => ""
  | [x] => Json.serialize x
  | x :: y :: xs => Json.serialize x ++ "," ++ serializeList (y :: xs)

def serializeFields : List (String × Json) → String
  | [] => ""
  | [(k, v)] => "\"" ++ escape k ++ "\":" ++ Json.serialize v
  | (k, v) :: f :: fs =>
    "\"" ++ escape k ++ "\":" ++ Json.serialize v ++ "," ++ serializeFields (f :: fs)

end

/-- Look a field up in a JSON object; `none` on non-objects. -/
def jsonLookup (j : Json) (key : String) : Option Json :=
  match j with
  | .obj fs => fs.lookup key
  | _ => none

/-- The target chart-spec schema URL. -/
def vegaLiteSchemaUrl : String := "https://vega.github.io/schema/vega-lite/v6.json"

def cellToJson : Cell → Json
  | .s v => .str v
  | .i v => .num v

/-- One result row as a JSON object keyed by column name. -/
def rowToJson (columns : List String) (row : List Cell) : Json :=
  .obj (columns.zip (row.map cellToJson))

/-- The embedded data rows of a result table. -/
def dataValues (t : Table) : List Json :=
  t.rows.map (rowToJson t.columns)

/-- The label override for an aesthetic, defaulting to the mapped
column name. -/
def titleFor (labels : List (String × String)) (aes col : String) : String :=
  (labels.lookup aes).getD col

/-- One encoding channel: field plus axis/legend title. -/
def encJson (labels : List (String × String)) (ca : String × String) :
    String × Json :=
  (ca.2, .obj [("field", .str ca.1), ("title", .str (titleFor labels ca.2 ca.1))])

/-- One layer of the output: its mark and its encoding object. -/
def layerJson (labels : List (String × String))
    (rl : MarkKind × List (String × String)) : Json :=
  .obj [("mark", .str (markName rl.1)),
        ("encoding", .obj (rl.2.map (encJson labels)))]

/-- The optional top-level title fields from the label overrides. -/
def titleFields (labels : List (String × String)) : List (String × Json) :=
  match labels.lookup "title" with
  | some t => [("title", .str t)]
  | none => []

def facetKindName : FacetKind → String
  | .wrap => "wrap"
  | .grid => "grid"

/-- Assemble the output JSON object: `$schema`, optional `title`,
embedded `data`, then either the top-level `layer` array or the
facet object wrapping the layer spec as its sub-spec. -/
def buildJson (p : Prepared) (rls : List (MarkKind × List (String × String))) :
    Json :=
  let layerArr : Json := .arr (rls.map (layerJson p.spec.labels))
  let common : List (String × Json) :=
    ("$schema", .str vegaLiteSchemaUrl) :: titleFields p.spec.labels ++
      [("data", .obj [("values", .arr (dataValues p.baseResult))])]
  match p.spec.facet with
  | none => .obj (common ++ [("layer", layerArr)])
  | some f =>
    .obj (common ++
      [("facet", .obj [("kind", .str (facetKindName f.kind)),
                       ("field", .str f.column)]),
       ("spec", .obj [("layer", layerArr)])])

/-- The resolved (mark, mappings) pairs codegen works from. -/
def resolvedLayers (p : Prepared) : List (MarkKind × List (String × String)) :=
  p.spec.layers.map (fun l => (l.mark, resolveLayer p.spec p.baseResult.columns l))

/-- Modelled from the spec: the code generator; a layer with no
resolved mappings reaching codegen is guarded as a `WriterError`. -/
def codegen (p : Prepared) : Except GgsqlError Json :=
  let rls := resolvedLayers p
  if rls.any (fun rl => rl.2.isEmpty) then
    .error (.writerError "layer with no resolved mappings reached codegen")
  else .ok (buildJson p rls)

/-- Modelled from the spec: `render_json(prepared) -> text`. -/
def renderJson (p : Prepared) : Except GgsqlError String :=
  (codegen p).map Json.serialize

/-! The structured chart object `render_chart` returns, modelling the
chart classes of the plotting library the writer targets: a layered
chart or a facet chart, each holding the schema reference, optional
title, embedded data and the typed layers. -/

/-- One encoding channel of a chart object. -/
structure EncRep where
  aes : String
  field : String
  axisTitle : String
deriving DecidableEq, Repr

/-- One typed layer of a chart object. -/
structure LayerRep where
  mark : String
  encoding : List EncRep
deriving DecidableEq, Repr

/-- The chart object: a layered chart, or a facet chart wrapping the
layer spec. -/
inductive Chart where
  | layered (schemaUrl : String) (title : Option String) (dataRows : List Json)
      (layers : List LayerRep)
  | faceted (schemaUrl : String) (title : Option String) (dataRows : List Json)
      (facetKind : String) (facetField : String) (layers : List LayerRep)

/-- Parse one encoding channel from its JSON form. -/
def encFromJson : String × Json → Option EncRep
  | (a, .obj [("field", .str f), ("title", .str t)]) => some ⟨a, f, t⟩
  | _ => none

def encListFromJson : List (String × Json) → Option (List EncRep)
  | [] => some []
  | f :: fs =>
    match encFromJson f, encListFromJson fs with
    | some e, some es => some (e :: es)
    | _, _ => none

/-- Parse one layer from its JSON form. -/
def layerFromJson : Json → Option LayerRep
  | .obj [("mark", .str m), ("encoding", .obj encs)] =>
    (encListFromJson encs).map (fun es => ⟨m, es⟩)
  | _ => none

def layerListFromJson : List Json → Option (List LayerRep)
  | [] => some []
  | x :: xs =>
    match layerFromJson x, layerListFromJson xs with
    | some l, some ls => some (l :: ls)
    | _, _ => none

/-- Parse the fields following `$schema` and the optional `title`. -/
def chartFromFields (schemaUrl : String) (title : Option String) :
    List (String × Json) → Option Chart
  | [("data", .obj [("values", .arr rows)]), ("layer", .arr ls)] =>
    (layerListFromJson ls).map (Chart.layered schemaUrl title rows)
  | [("data", .obj [("values", .arr rows)]),
     ("facet", .obj [("kind", .str k), ("field", .str f)]),
     ("spec", .obj [("layer", .arr ls)])] =>
    (layerListFromJson ls).map (Chart.faceted schemaUrl title rows k f)
  | _ => none

/-- Build the structured chart object from the emitted JSON, the way
the chart library loads a serialized specification. -/
def chartFromJson : Json → Option Chart
  | .obj (("$schema", .str u) :: ("title", .str t) :: rest) =>
    chartFromFields u (some t) rest
  | .obj (("$schema", .str u) :: rest) => chartFromFields u none rest
  | _ => none

def encToJson (e : EncRep) : String × Json :=
  (e.aes, .obj [("field", .str e.field), ("title", .str e.axisTitle)])

def layerToJson (l : LayerRep) : Json :=
  .obj [("mark", .str l.mark), ("encoding", .obj (l.encoding.map encToJson))]

def titleFieldsOf : Option String → List (String × Json)
  | some t => [("title", .str t)]
  | none => []

/-- Serialize a chart object back to its JSON structure (the chart
library's own serialization). -/
def chartToJson : Chart → Json
  | .layered u t rows ls =>
    .obj (("$schema", .str u) :: titleFieldsOf t ++
      [("data", .obj [("values", .arr rows)]),
       ("layer", .arr (ls.map layerToJson))])
  | .faceted u t rows k f ls =>
    .obj (("$schema", .str u) :: titleFieldsOf t ++
      [("data", .obj [("values", .arr rows)]),
       ("facet", .obj [("kind", .str k), ("field", .str f)]),
       ("spec", .obj [("layer", .arr (ls.map layerToJson))])])

/-- Modelled from the spec: `render_chart(prepared) -> chart_object`:
generate the specification and load it as a structured chart object,
guarding load failure as a `WriterError`. -/
def renderChart (p : Prepared) : Except GgsqlError Chart :=
  match codegen p with
  | .error e => .error e
  | .ok j =>
    match chartFromJson j with
    | some c => .ok c
    | none => .error (.writerError "generated specification is not loadable")

/-! ## Derived accessors and concrete fixtures used by the claims -/

/-- The chart-object representative of one resolved layer. -/
def encRepOf (labels : List (String × String)) (ca : String × String) : EncRep :=
  ⟨ca.2, ca.1, titleFor labels ca.2 ca.1⟩

def layerRepOf (labels : List (String × String))
    (rl : MarkKind × List (String × String)) : LayerRep :=
  ⟨markName rl.1, rl.2.map (encRepOf labels)⟩

/-- The layer JSON objects the writer emits for a `Prepared`. -/
def layerJsonsOf (p : Prepared) : List Json :=
  (resolvedLayers p).map (layerJson p.spec.labels)

/-- The chart object the writer's output describes. -/
def chartOfBuild (p : Prepared)
    (rls : List (MarkKind × List (String × String))) : Chart :=
  match p.spec.facet with
  | none =>
    .layered vegaLiteSchemaUrl (p.spec.labels.lookup "title")
      (dataValues p.baseResult) (rls.map (layerRepOf p.spec.labels))
  | some f =>
    .faceted vegaLiteSchemaUrl (p.spec.labels.lookup "title")
      (dataValues p.baseResult) (facetKindName f.kind) f.column
      (rls.map (layerRepOf p.spec.labels))

/-- Extract the top-level `layer` array of an output object. -/
def layerArrayOf (j : Json) : Option (List Json) :=
  match jsonLookup j "layer" with
  | some (.arr ls) => some ls
  | _ => none

/-- The top-level `layer` array of a codegen outcome, when the
outcome succeeded and the array is present. -/
def topLevelLayerArray (r : Except GgsqlError Json) : Option (List Json) :=
  match r with
  | .ok j => layerArrayOf j
  | .error _ => none

/-- The `mark` field of a layer JSON object. -/
def markFieldOf (j : Json) : Option Json := jsonLookup j "mark"

/-- The mark names of a spec's layers, in declared order, as they
must appear in the output. -/
def expectedMarks (p : Prepared) : List (Option Json) :=
  p.spec.layers.map (fun l => some (Json.str (markName l.mark)))

/-- A message mentions a name when the name occurs in it verbatim. -/
def mentions (e : GError) (s : String) : Prop :=
  ∃ s1 s2, e.message = s1 ++ s ++ s2

/-- The query of the required-aesthetic scenario: `y` omitted. -/
def scenarioQuery : String :=
  "SELECT 1 AS x, 2 AS y VISUALISE DRAW point MAPPING x AS x"

/-- A three-row table over columns x, y. -/
def xyTable : Table := ⟨["x", "y"], [[.i 1, .i 10], [.i 2, .i 20], [.i 3, .i 30]]⟩

/-- A table missing the y column. -/
def xOnlyTable : Table := ⟨["x"], [[.i 1], [.i 2], [.i 3]]⟩

/-- A toy backend for the plain-SQL scenario: it answers the one
scenario query and rejects everything else. -/
def scenarioBackend : Backend := fun _ sql =>
  if sql = "SELECT 1 AS x, 2 AS y" then .ok ⟨["x", "y"], [[.i 1, .i 2]]⟩
  else .error "Catalog Error: unknown statement"

/-- A toy backend resolving `SELECT * FROM data` against the current
bindings, the way the scoped-registration scenarios use it. -/
def tableBackend : Backend := fun tables sql =>
  if sql = "SELECT * FROM data" then
    match tables.lookup "data" with
    | some t => .ok t
    | none => .error "Catalog Error: table 'data' does not exist"
  else .error "Catalog Error: unknown statement"

/-- A valid single-layer faceted `Prepared`: one DRAW block plus a
`FACET WRAP` clause. -/
def facetPrepared : Prepared :=
  ⟨"SELECT * FROM data", "VISUALISE x, y FACET WRAP g DRAW point",
    ⟨none, [⟨.col "x", none⟩, ⟨.col "y", none⟩], [⟨.point, []⟩],
      some ⟨.wrap, "g"⟩, []⟩,
    ⟨["x", "y", "g"], [[.i 1, .i 10, .s "A"]]⟩,
    [⟨"SELECT * FROM data", none, none⟩], []⟩

/-- A valid two-layer non-faceted `Prepared` (line before point). -/
def twoLayerPrepared : Prepared :=
  ⟨"SELECT * FROM data", "VISUALISE x, y DRAW line DRAW point",
    ⟨none, [⟨.col "x", none⟩, ⟨.col "y", none⟩], [⟨.line, []⟩, ⟨.point, []⟩],
      none, []⟩,
    xyTable, [⟨"SELECT * FROM data", none, none⟩, ⟨"SELECT * FROM data", none, none⟩],
    []⟩

/-- The output object of the two-layer fixture. -/
def twoLayerJson : Json := buildJson twoLayerPrepared (resolvedLayers twoLayerPrepared)

end Ggsql

namespace GgsqlRest

/-! ## Connection registry (ggsql_rest/_connections.py)

Direct embedding of `ConnectionRegistry`: named engine factories and
an engine cache keyed by (connection name, user id), where the user id
comes from the request's `X-User-Id` header, defaulting to
"anonymous".  The engine type is abstract (`ε`), so returning the
identical cached object is expressed as equality in `ε`. -/

/-- An HTTP request, reduced to its header mapping. -/
structure Request where
  headers : List (String × String)

/-- `extract_user_id`: the `X-User-Id` header value or "anonymous". -/
def extractUserId (r : Request) : String :=
  (r.headers.lookup "X-User-Id").getD "anonymous"

/-- The registry's state: named factories and the engine cache. -/
structure Registry (ε : Type) where
  factories : List (String × (Request → ε))
  engines : List ((String × String) × ε)

/-- `register(name, factory)`. -/
def registerConn {ε : Type} (reg : Registry ε) (name : String)
    (factory : Request → ε) : Registry ε :=
  { reg with factories := (name, factory) :: reg.factories.filter (fun e => e.1 ≠ name) }

/-- `list_connections()`. -/
def listConnections {ε : Type} (reg : Registry ε) : List String :=
  reg.factories.map Prod.fst

/-- `get_engine(name, request)`: raises `KeyError` for an unknown
name; otherwise returns the cached engine for (name, user id),
invoking the factory only on a cache miss.  The returned triple is
(result, updated registry, whether the factory was invoked). -/
def getEngine {ε : Type} (reg : Registry ε) (name : String) (req : Request) :
    Except String ε × Registry ε × Bool :=
  match reg.factories.lookup name with
  | none => (.error ("Unknown connection: '" ++ name ++ "'"), reg, false)
  | some factory =>
    let key := (name, extractUserId req)
    match reg.engines.lookup key with
    | some e => (.ok e, reg, false)
    | none =>
      let e := factory req
      (.ok e, { reg with engines := (key, e) :: reg.engines }, true)

/-- Concrete fixture: a registry with one factory, engines cached as
naturals. -/
def regFixture : Registry Nat := ⟨[("test", fun _ => 7)], []⟩

/-- The fixture registry after the first `get_engine` call. -/
def regFixture1 : Registry Nat := ⟨[("test", fun _ => 7)], [(("test", "user1"), 7)]⟩

/-- A request carrying the `X-User-Id: user1` header. -/
def reqUser1 : Request := ⟨[("X-User-Id", "user1")]⟩

/-- A request carrying no headers. -/
def reqAnon : Request := ⟨[]⟩

end GgsqlRest

/-! # Theorems -/

namespace Ggsql

theorem lookup_filter_ne {α : Type} (l : List (String × α)) (n : String) :
    (l.filter (fun e => e.1 ≠ n)).lookup n = none := by
  induction l with
  | nil => rfl
  | cons e rest ih =>
    by_cases h : e.1 = n
    · simpa [List.filter_cons, h] using ih
    · have hne : (n == e.1) = false := by
        simp [Ne.symm h]
      simp [List.filter_cons, h, List.lookup, hne, ih]
      exact fun a b _ hna hc => hna hc.symm

theorem lookup_filter_none {α : Type} (l : List (String × α))
    (p : String × α → Bool) (n : String) (h : l.lookup n = none) :
    (l.filter p).lookup n = none := by
  induction l with
  | nil => rfl
  | cons e rest ih =>
    rw [List.lookup_cons] at h
    by_cases hk : (n == e.1) = true
    · simp [hk] at h
    · have hk' : (n == e.1) = false := by simpa using hk
      rw [hk'] at h
      by_cases hp : p e = true
      · simp [List.filter_cons, hp, List.lookup, hk', ih h]
      · have hp' : p e = false := by simpa using hp
        simp [List.filter_cons, hp', ih h]

theorem lookup_unregister_self (st : ReaderState) (n : String) :
    lookupTable (unregister st n) n = none :=
  lookup_filter_ne st.tables n

theorem lookup_unregister_none (st : ReaderState) (m n : String)
    (h : lookupTable st n = none) : lookupTable (unregister st m) n = none :=
  lookup_filter_none st.tables _ n h

theorem lookup_none_forall {α : Type} (l : List (String × α)) (n : String)
    (h : l.lookup n = none) : ∀ e ∈ l, e.1 ≠ n := by
  induction l with
  | nil => intro e he; cases he
  | cons e rest ih =>
    rw [List.lookup_cons] at h
    by_cases hk : (n == e.1) = true
    · simp [hk] at h
    · have hk' : (n == e.1) = false := by simpa using hk
      rw [hk'] at h
      intro f hf
      rcases List.mem_cons.mp hf with hf | hf
      · subst hf
        intro hc
        rw [hc] at hk'
        simp at hk'
      · exact ih h f hf

theorem unregister_absent (st : ReaderState) (n : String)
    (h : lookupTable st n = none) : unregister st n = st := by
  unfold unregister
  have : st.tables.filter (fun e => e.1 ≠ n) = st.tables := by
    rw [List.filter_eq_self]
    intro e he
    simpa using lookup_none_forall st.tables n h e he
  rw [this]

theorem foldl_unregister_preserve (data : List (String × Table)) :
    ∀ (st : ReaderState) (n : String), lookupTable st n = none →
      lookupTable (data.foldl (fun s e => unregister s e.1) st) n = none := by
  induction data with
  | nil => intro st n h; exact h
  | cons d rest ih =>
    intro st n h
    exact ih _ n (lookup_unregister_none st d.1 n h)

theorem foldl_unregister_removes (data : List (String × Table)) :
    ∀ (st : ReaderState) (n : String), n ∈ data.map Prod.fst →
      lookupTable (data.foldl (fun s e => unregister s e.1) st) n = none := by
  induction data with
  | nil => intro st n h; cases h
  | cons d rest ih =>
    intro st n h
    rcases List.mem_cons.mp h with h | h
    · exact foldl_unregister_preserve rest _ n
        (h ▸ lookup_unregister_self st d.1)
    · exact ih _ n h

/-- The scanner finds a top-level `VISUALISE` exactly when the
standalone occurrence predicate holds, for every scanner state. -/
theorem scanSplit_isSome_eq (cs : List Char) :
    ∀ (acc : List Char) (depth : Nat) (inStr : Bool) (prev : Option Char),
      (scanSplit acc cs depth inStr prev).isSome = hasTLVAux cs depth inStr prev := by
  induction cs with
  | nil => intro acc depth inStr prev; rfl
  | cons c rest ih =>
    intro acc depth inStr prev
    unfold scanSplit hasTLVAux
    by_cases h : (!inStr && depth = 0 && boundaryOk prev && visHere (c :: rest)) = true
    · simp [h]
    · simp only [Bool.not_eq_true] at h
      simp [h, ih]

/-- C6.  For every input string containing no top-level `VISUALISE`
token (outside parentheses and string literals), `split` returns the
trimmed input as the SQL part and the empty string as the visual
part. -/
theorem split_without_visualise (s : String)
    (h : hasTopLevelVisualise s = false) : split s = (trim s, "") := by
  unfold split
  cases hs : scanSplit [] s.data 0 false none with
  | none => rfl
  | some pr =>
    have := scanSplit_isSome_eq s.data [] 0 false none
    rw [hs] at this
    unfold hasTopLevelVisualise at h
    rw [h] at this
    simp at this

/-- C6 witness: the splitter on the concrete pure-SQL scenario input. -/
theorem split_without_visualise_witness :
    hasTopLevelVisualise "SELECT 1 AS x, 2 AS y" = false ∧
      split "SELECT 1 AS x, 2 AS y" = (trim "SELECT 1 AS x, 2 AS y", "") :=
  ⟨by rfl, split_without_visualise "SELECT 1 AS x, 2 AS y" (by rfl)⟩

/-- C8.  `unregister` is a total function, hence never raises; after
`unregister(name)` the name is unbound; and when the name was not
bound, the call is a silent no-op leaving the state unchanged. -/
theorem unregister_silent_noop (st : ReaderState) (n : String) :
    lookupTable (unregister st n) n = none ∧
      (lookupTable st n = none → unregister st n = st) :=
  ⟨lookup_unregister_self st n, unregister_absent st n⟩

/-- C8 witness: unregistering a name absent from a concrete one-table
namespace removes nothing and leaves the name unbound. -/
theorem unregister_silent_noop_witness :
    lookupTable (unregister ⟨[("t", xyTable)]⟩ "nonexistent_table") "nonexistent_table"
        = none ∧
      unregister ⟨[("t", xyTable)]⟩ "nonexistent_table" = ⟨[("t", xyTable)]⟩ :=
  ⟨(unregister_silent_noop ⟨[("t", xyTable)]⟩ "nonexistent_table").1,
    (unregister_silent_noop ⟨[("t", xyTable)]⟩ "nonexistent_table").2 (by rfl)⟩

/-- C1.  For every `execute(query, data)` call, every table name in
`data` is unregistered from the reader's backend namespace after the
call completes — the result being a success or any error alike: the
name is unbound in the final state, and unregistering it again is the
identity, exactly as if the table had never been registered. -/
theorem execute_scoped_cleanup (backend : Backend) (st : ReaderState)
    (query : String) (data : List (String × Table)) (n : String)
    (h : n ∈ data.map Prod.fst) :
    lookupTable (execute backend st query data).2 n = none ∧
      unregister (execute backend st query data).2 n
        = (execute backend st query data).2 := by
  have h1 : lookupTable (execute backend st query data).2 n = none :=
    foldl_unregister_removes data _ n h
  exact ⟨h1, unregister_absent _ n h1⟩

/-- C1 witness: the concrete scoped-execution scenarios — a
successful call and a validation-failing call (the registered table
lacking the `y` column) — both leave `data` unbound afterward. -/
theorem execute_scoped_cleanup_witness :
    (execute tableBackend ⟨[]⟩ "SELECT * FROM data VISUALISE x, y DRAW point"
        [("data", xyTable)]).1.isOk = true ∧
      lookupTable (execute tableBackend ⟨[]⟩
        "SELECT * FROM data VISUALISE x, y DRAW point"
        [("data", xyTable)]).2 "data" = none ∧
      isValidationFailure (execute tableBackend ⟨[]⟩
        "SELECT * FROM data VISUALISE x, y DRAW point"
        [("data", xOnlyTable)]).1 = true ∧
      lookupTable (execute tableBackend ⟨[]⟩
        "SELECT * FROM data VISUALISE x, y DRAW point"
        [("data", xOnlyTable)]).2 "data" = none := by
  refine ⟨by rfl, ?_, by rfl, ?_⟩
  · exact (execute_scoped_cleanup tableBackend ⟨[]⟩
      "SELECT * FROM data VISUALISE x, y DRAW point" [("data", xyTable)] "data"
      (by simp)).1
  · exact (execute_scoped_cleanup tableBackend ⟨[]⟩
      "SELECT * FROM data VISUALISE x, y DRAW point" [("data", xOnlyTable)] "data"
      (by simp)).1

/-- C5.  For every query string, `execute` returns the
`NoVisualiseError` outcome exactly when the splitter finds no
top-level `VISUALISE` clause in it; and the same plain-SQL query
passed to `execute_sql` succeeds with the backend's result rows. -/
theorem execute_no_visualise_iff (backend : Backend) (st : ReaderState)
    (q : String) (data : List (String × Table)) :
    (isNoVisualise (execute backend st q data).1 = true ↔ (split q).2 = "") ∧
      (∀ t, backend st.tables q = .ok t → executeSql backend st q = .ok t) := by
  constructor
  · have hcore : (execute backend st q data).1
        = executeCore backend
            (data.foldl (fun s e => register s e.1 e.2) st).tables q := rfl
    rw [hcore]
    unfold executeCore
    by_cases h : (split q).2 = ""
    · simp [h, isNoVisualise]
    · simp only [h, if_false, iff_false]
      cases hp : parseSpec (split q).2 with
      | error e => simp [hp, isNoVisualise, h]
      | ok sp =>
        cases hb : backend
            (data.foldl (fun s e => register s e.1 e.2) st).tables
            (baseSqlOf (split q).1 sp) with
        | error e => simp [hp, hb, isNoVisualise, h]
        | ok base =>
          by_cases he : (validateSpec sp base.columns).isEmpty
            <;> simp [hp, hb, isNoVisualise, h, he]
  · intro t ht
    simp [executeSql, ht]

/-- C5 witness: the concrete plain-SQL scenario query raises the
no-visualise outcome under `execute` and succeeds under
`execute_sql`, returning its one result row. -/
theorem execute_no_visualise_iff_witness :
    isNoVisualise
        (execute scenarioBackend ⟨[]⟩ "SELECT 1 AS x, 2 AS y" []).1 = true ∧
      executeSql scenarioBackend ⟨[]⟩ "SELECT 1 AS x, 2 AS y"
        = .ok ⟨["x", "y"], [[.i 1, .i 2]]⟩ := by
  refine ⟨?_, ?_⟩
  · exact (execute_no_visualise_iff scenarioBackend ⟨[]⟩
      "SELECT 1 AS x, 2 AS y" []).1.mpr (by rfl)
  · exact (execute_no_visualise_iff scenarioBackend ⟨[]⟩
      "SELECT 1 AS x, 2 AS y" []).2 ⟨["x", "y"], [[.i 1, .i 2]]⟩ (by rfl)

theorem mkMissingError_inj (m : MarkKind) (a b : String)
    (h : mkMissingError m a = mkMissingError m b) : a = b := by
  have h2 := congrArg (fun e => e.message.data) h
  simp only [mkMissingError, String.data_append] at h2
  have h3 := List.append_cancel_right
    (List.append_cancel_right (List.append_cancel_right h2))
  have h4 := List.append_cancel_left h3
  exact String.ext h4

theorem missing_nodup (spec : VisualSpec) (schema : List String) (l : Layer) :
    (missingAesthetics spec schema l).Nodup := by
  unfold missingAesthetics
  apply List.Nodup.filter
  cases l.mark <;> decide

theorem layerRequiredErrors_count (spec : VisualSpec) (schema : List String)
    (l : Layer) (a : String) :
    (layerRequiredErrors spec schema l).countP
        (fun e => e = mkMissingError l.mark a)
      = if a ∈ missingAesthetics spec schema l then 1 else 0 := by
  unfold layerRequiredErrors
  rw [List.countP_map]
  have hcong : ∀ x ∈ missingAesthetics spec schema l,
      (((fun e => decide (e = mkMissingError l.mark a)) ∘ mkMissingError l.mark) x
          = true
        ↔ ((fun x => x == a) x = true)) := by
    intro x _
    simp only [Function.comp, decide_eq_true_eq, beq_iff_eq]
    exact ⟨fun hc => mkMissingError_inj l.mark x a hc, fun hx => by rw [hx]⟩
  rw [List.countP_congr hcong]
  by_cases hm : a ∈ missingAesthetics spec schema l
  · rw [if_pos hm]
    have := List.count_eq_one_of_mem (missing_nodup spec schema l) hm
    simpa [List.count] using this
  · rw [if_neg hm]
    have := List.count_eq_zero_of_not_mem (a := a) hm
    simpa [List.count] using this

/-- C4.  Validation produces exactly one error per missing required
aesthetic of each layer (its count among the layer's required-check
errors is one when the aesthetic is missing and zero otherwise, those
errors being the leading part of the collected error list), the error
message names the aesthetic and the mark kind; in particular
validating `DRAW point MAPPING x AS x` against the schema x, y yields
an invalid result with an error mentioning `y`. -/
theorem required_aesthetic_errors :
    (∀ (spec : VisualSpec) (schema : List String),
      validateSpec spec schema
        = spec.layers.flatMap (layerRequiredErrors spec schema)
            ++ spec.layers.flatMap (layerUnknownColumnErrors spec schema)
            ++ facetUnknownColumnErrors spec schema) ∧
      (∀ (spec : VisualSpec) (schema : List String) (l : Layer) (a : String),
        (layerRequiredErrors spec schema l).countP
            (fun e => e = mkMissingError l.mark a)
          = if a ∈ missingAesthetics spec schema l then 1 else 0) ∧
      (∀ (m : MarkKind) (a : String),
        mentions (mkMissingError m a) a ∧
          mentions (mkMissingError m a) (markName m)) ∧
      ((validateQuery scenarioQuery ["x", "y"]).valid = false ∧
        ∃ e ∈ (validateQuery scenarioQuery ["x", "y"]).errors, mentions e "y") := by
  refine ⟨fun spec schema => rfl, layerRequiredErrors_count, ?_, by rfl, ?_⟩
  · intro m a
    constructor
    · exact ⟨"missing required aesthetic '",
        "' for mark '" ++ markName m ++ "'",
        by simp [mkMissingError, String.append_assoc]⟩
    · exact ⟨"missing required aesthetic '" ++ a ++ "' for mark '", "'",
        by simp [mkMissingError, String.append_assoc]⟩
  · exact ⟨⟨"missing required aesthetic 'y' for mark 'point'"⟩, by decide,
      "missing required aesthetic '", "' for mark 'point'", by rfl⟩

/-- C7.  For every `Validated` result, `valid()` holds exactly when
the collected error list is empty; and `has_visual()` is independent
of validity: the required-aesthetic scenario produces a `Validated`
with `has_visual()` true and `valid()` false at once. -/
theorem valid_iff_errors_empty :
    (∀ v : Validated, v.valid = true ↔ v.errors = []) ∧
      (validateQuery scenarioQuery ["x", "y"]).hasVisual = true ∧
      (validateQuery scenarioQuery ["x", "y"]).valid = false := by
  refine ⟨?_, by rfl, by rfl⟩
  intro v
  simp [Validated.valid, List.isEmpty_iff]

/-- C9.  Every error kind of the taxonomy — ParseError,
ValidationError, ReaderError, WriterError, NoVisualiseError — derives
from the single base kind GgsqlError, and every error value the core
raises belongs to a class deriving from GgsqlError, so one catch at
the base kind sees them all. -/
theorem error_taxonomy_single_base :
    derivesFrom .parseE .ggsqlError = true ∧
      derivesFrom .validationE .ggsqlError = true ∧
      derivesFrom .readerE .ggsqlError = true ∧
      derivesFrom .writerE .ggsqlError = true ∧
      derivesFrom .noVisualiseE .ggsqlError = true ∧
      (∀ e : GgsqlError, derivesFrom e.kind .ggsqlError = true) ∧
      (∀ e : GgsqlError, derivesFrom e.kind .exception = true) := by
  refine ⟨rfl, rfl, rfl, rfl, rfl, ?_, ?_⟩ <;> intro e <;> cases e <;> rfl

theorem encFromJson_encJson (labels : List (String × String))
    (ca : String × String) :
    encFromJson (encJson labels ca) = some (encRepOf labels ca) := rfl

theorem encListFromJson_map (labels : List (String × String))
    (rs : List (String × String)) :
    encListFromJson (rs.map (encJson labels)) = some (rs.map (encRepOf labels)) := by
  induction rs with
  | nil => rfl
  | cons r rest ih =>
    simp [encListFromJson, encFromJson_encJson, ih]

theorem layerFromJson_layerJson (labels : List (String × String))
    (rl : MarkKind × List (String × String)) :
    layerFromJson (layerJson labels rl) = some (layerRepOf labels rl) := by
  simp [layerFromJson, layerJson, encListFromJson_map, layerRepOf]

theorem layerListFromJson_map (labels : List (String × String))
    (rls : List (MarkKind × List (String × String))) :
    layerListFromJson (rls.map (layerJson labels))
      = some (rls.map (layerRepOf labels)) := by
  induction rls with
  | nil => rfl
  | cons r rest ih =>
    simp [layerListFromJson, layerFromJson_layerJson, ih]

theorem layerToJson_layerRepOf (labels : List (String × String))
    (rl : MarkKind × List (String × String)) :
    layerToJson (layerRepOf labels rl) = layerJson labels rl := by
  simp [layerToJson, layerRepOf, layerJson, List.map_map]
  intro a b _
  rfl

theorem chartFromJson_notitle (u : String) (rows : List Json)
    (rest : List (String × Json)) :
    chartFromJson (.obj (("$schema", .str u)
        :: ("data", .obj [("values", .arr rows)]) :: rest))
      = chartFromFields u none
          (("data", .obj [("values", .arr rows)]) :: rest) := rfl

theorem chartFromJson_title (u t : String) (rest : List (String × Json)) :
    chartFromJson (.obj (("$schema", .str u) :: ("title", .str t) :: rest))
      = chartFromFields u (some t) rest := rfl

theorem chartFromFields_layer (u : String) (topt : Option String)
    (rows : List Json) (ls : List Json) (reps : List LayerRep)
    (h : layerListFromJson ls = some reps) :
    chartFromFields u topt
        [("data", .obj [("values", .arr rows)]), ("layer", .arr ls)]
      = some (Chart.layered u topt rows reps) := by
  simp [chartFromFields, h]

theorem chartFromFields_facet (u : String) (topt : Option String)
    (rows : List Json) (k f : String) (ls : List Json) (reps : List LayerRep)
    (h : layerListFromJson ls = some reps) :
    chartFromFields u topt
        [("data", .obj [("values", .arr rows)]),
         ("facet", .obj [("kind", .str k), ("field", .str f)]),
         ("spec", .obj [("layer", .arr ls)])]
      = some (Chart.faceted u topt rows k f reps) := by
  simp [chartFromFields, h]

theorem layersToJson_map (labels : List (String × String))
    (rls : List (MarkKind × List (String × String))) :
    (rls.map (layerRepOf labels)).map layerToJson = rls.map (layerJson labels) := by
  rw [List.map_map]
  apply List.map_congr_left
  intro rl _
  exact layerToJson_layerRepOf labels rl

/-- Loading the writer's output as a chart object succeeds and
serializing the chart object reproduces the output, for every output
shape the writer emits. -/
theorem build_roundtrip (p : Prepared)
    (rls : List (MarkKind × List (String × String))) :
    chartFromJson (buildJson p rls) = some (chartOfBuild p rls) ∧
      chartToJson (chartOfBuild p rls) = buildJson p rls := by
  cases hf : p.spec.facet with
  | none =>
    cases ht : p.spec.labels.lookup "title" with
    | none =>
      constructor
      · simp only [buildJson, chartOfBuild, hf, ht, titleFields, List.nil_append,
          List.cons_append, List.singleton_append]
        rw [chartFromJson_notitle]
        rw [chartFromFields_layer _ _ _ _ _ (layerListFromJson_map _ rls)]
      · simp only [buildJson, chartOfBuild, hf, ht, chartToJson, titleFieldsOf,
          titleFields, List.nil_append, List.cons_append, List.singleton_append]
        rw [layersToJson_map]
    | some t =>
      constructor
      · simp only [buildJson, chartOfBuild, hf, ht, titleFields, List.nil_append,
          List.cons_append, List.singleton_append]
        rw [chartFromJson_title]
        rw [chartFromFields_layer _ _ _ _ _ (layerListFromJson_map _ rls)]
      · simp only [buildJson, chartOfBuild, hf, ht, chartToJson, titleFieldsOf,
          titleFields, List.nil_append, List.cons_append, List.singleton_append]
        rw [layersToJson_map]
  | some f =>
    cases ht : p.spec.labels.lookup "title" with
    | none =>
      constructor
      · simp only [buildJson, chartOfBuild, hf, ht, titleFields, List.nil_append,
          List.cons_append, List.singleton_append]
        rw [chartFromJson_notitle]
        rw [chartFromFields_facet _ _ _ _ _ _ _ (layerListFromJson_map _ rls)]
      · simp only [buildJson, chartOfBuild, hf, ht, chartToJson, titleFieldsOf,
          titleFields, List.nil_append, List.cons_append, List.singleton_append]
        rw [layersToJson_map]
    | some t =>
      constructor
      · simp only [buildJson, chartOfBuild, hf, ht, titleFields, List.nil_append,
          List.cons_append, List.singleton_append]
        rw [chartFromJson_title]
        rw [chartFromFields_facet _ _ _ _ _ _ _ (layerListFromJson_map _ rls)]
      · simp only [buildJson, chartOfBuild, hf, ht, chartToJson, titleFieldsOf,
          titleFields, List.nil_append, List.cons_append, List.singleton_append]
        rw [layersToJson_map]

/-- C2.  For every `Prepared` result, serializing the chart object
returned by `render_chart` yields exactly the text `render_json`
returns (the two entry points are representationally equivalent, error
outcomes included). -/
theorem render_equivalence (p : Prepared) :
    (renderChart p).map (fun c => Json.serialize (chartToJson c)) = renderJson p := by
  unfold renderChart renderJson codegen
  by_cases h : ((resolvedLayers p).any fun rl => rl.2.isEmpty) = true
  · simp [h, Except.map]
  · obtain ⟨h1, h2⟩ := build_roundtrip p (resolvedLayers p)
    simp [h, h1, h2, Except.map]

theorem markFieldOf_layerJson (labels : List (String × String))
    (rl : MarkKind × List (String × String)) :
    markFieldOf (layerJson labels rl) = some (Json.str (markName rl.1)) := rfl

/-- C3 counterexample: a valid one-DRAW-block spec carrying a `FACET`
clause renders successfully, yet its output has no top-level `layer`
array — the facet object wraps the layer spec instead, so the claim
as stated fails on faceted specs. -/
theorem layer_wrap_counterexample :
    facetPrepared.spec.layers.length = 1 ∧
      validateSpec facetPrepared.spec facetPrepared.baseResult.columns = [] ∧
      (codegen facetPrepared).isOk = true ∧
      topLevelLayerArray (codegen facetPrepared) = none :=
  ⟨rfl, rfl, rfl, rfl⟩

/-- C3 (amended).  For every spec without a `FACET` clause whose
rendering succeeds, the output has a top-level `layer` array holding
exactly one element per `DRAW` block, in declared order (the i-th
element's mark is the i-th declared layer's mark kind); in particular
a single-mark spec still yields a `layer` array of length one. -/
theorem layer_wrap_amended (p : Prepared) (j : Json)
    (hf : p.spec.facet = none) (hc : codegen p = .ok j) :
    layerArrayOf j = some (layerJsonsOf p) ∧
      (layerJsonsOf p).length = p.spec.layers.length ∧
      (layerJsonsOf p).map markFieldOf = expectedMarks p := by
  unfold codegen at hc
  by_cases h : ((resolvedLayers p).any fun rl => rl.2.isEmpty) = true
  · rw [if_pos h] at hc
    cases hc
  · rw [if_neg h] at hc
    injection hc with hj
    subst hj
    refine ⟨?_, ?_, ?_⟩
    · cases ht : p.spec.labels.lookup "title" with
      | none =>
        have htf : titleFields p.spec.labels = [] := by simp [titleFields, ht]
        simp [buildJson, hf, htf, layerArrayOf, jsonLookup, List.lookup, layerJsonsOf]
      | some t =>
        have htf : titleFields p.spec.labels = [("title", .str t)] := by
          simp [titleFields, ht]
        simp [buildJson, hf, htf, layerArrayOf, jsonLookup, List.lookup, layerJsonsOf]
    · simp [layerJsonsOf, resolvedLayers]
    · rw [layerJsonsOf, resolvedLayers, expectedMarks]
      rw [List.map_map, List.map_map]
      apply List.map_congr_left
      intro l _
      rfl

/-- C3 witness: the two-layer fixture (line before point, no facet)
has a top-level `layer` array of length two with the marks in declared
order. -/
theorem layer_wrap_amended_witness :
    layerArrayOf twoLayerJson = some (layerJsonsOf twoLayerPrepared) ∧
      (layerJsonsOf twoLayerPrepared).length
          = twoLayerPrepared.spec.layers.length ∧
      (layerJsonsOf twoLayerPrepared).map markFieldOf
        = expectedMarks twoLayerPrepared :=
  layer_wrap_amended twoLayerPrepared twoLayerJson rfl rfl

end Ggsql

namespace GgsqlRest

/-- C10.  `get_engine` raises a `KeyError`-style failure for an
unregistered connection name without touching the cache; after any
successful call, a repeated call with the same name and request
returns the identical cached engine without invoking the factory and
without changing the registry; and the cache key's user component is
the request's `X-User-Id` header value, or "anonymous" when that
header is absent. -/
theorem getEngine_caches_by_user {ε : Type} (reg : Registry ε)
    (name : String) (req : Request) :
    (reg.factories.lookup name = none →
      getEngine reg name req
        = (.error ("Unknown connection: '" ++ name ++ "'"), reg, false)) ∧
      (∀ (e : ε) (reg1 : Registry ε) (invoked : Bool),
        getEngine reg name req = (.ok e, reg1, invoked) →
          getEngine reg1 name req = (.ok e, reg1, false)) ∧
      (req.headers.lookup "X-User-Id" = none →
        extractUserId req = "anonymous") ∧
      (∀ u, req.headers.lookup "X-User-Id" = some u → extractUserId req = u) := by
  refine ⟨?_, ?_, ?_, ?_⟩
  · intro h
    simp [getEngine, h]
  · intro e reg1 invoked h
    cases hf : reg.factories.lookup name with
    | none =>
      have hcall : getEngine reg name req
          = (.error ("Unknown connection: '" ++ name ++ "'"), reg, false) := by
        simp [getEngine, hf]
      rw [hcall] at h
      simp [Prod.ext_iff] at h
    | some f =>
      cases he : reg.engines.lookup (name, extractUserId req) with
      | some e0 =>
        have hcall : getEngine reg name req = (.ok e0, reg, false) := by
          simp [getEngine, hf, he]
        rw [hcall] at h
        simp only [Prod.mk.injEq, Except.ok.injEq] at h
        obtain ⟨h1, h2, _⟩ := h
        subst h1
        rw [← h2]
        simp [getEngine, hf, he]
      | none =>
        have hcall : getEngine reg name req
            = (.ok (f req),
               ⟨reg.factories, ((name, extractUserId req), f req) :: reg.engines⟩,
               true) := by
          simp [getEngine, hf, he]
        rw [hcall] at h
        simp only [Prod.mk.injEq, Except.ok.injEq] at h
        obtain ⟨h1, h2, _⟩ := h
        subst h1
        rw [← h2]
        simp [getEngine, hf, List.lookup]
  · intro h
    simp [extractUserId, h]
  · intro u h
    simp [extractUserId, h]

/-- C10 witness: on the concrete fixture, the first call invokes the
factory and caches engine 7 under ("test", "user1"); the second call
returns the identical engine without invoking the factory; an unknown
name fails without changing the registry; a headerless request maps to
the "anonymous" user. -/
theorem getEngine_caches_by_user_witness :
    getEngine regFixture "test" reqUser1 = (.ok 7, regFixture1, true) ∧
      getEngine regFixture1 "test" reqUser1 = (.ok 7, regFixture1, false) ∧
      getEngine regFixture "missing" reqUser1
        = (.error "Unknown connection: 'missing'", regFixture, false) ∧
      extractUserId reqAnon = "anonymous" := by
  have h1 : getEngine regFixture "test" reqUser1 = (.ok 7, regFixture1, true) := by
    rfl
  refine ⟨h1, ?_, ?_, ?_⟩
  · exact (getEngine_caches_by_user regFixture "test" reqUser1).2.1 7 regFixture1
      true h1
  · exact (getEngine_caches_by_user regFixture "missing" reqUser1).1 (by rfl)
  · exact (getEngine_caches_by_user regFixture "x" reqAnon).2.2.1 (by rfl)

end GgsqlRest
